import Mathlib

/-!
Shallow embedding of the stratumclient Go package (stratumclient.go).

The package is a client library for a query-based REST API.  All verbs
funnel through `Client.Call`, which validates the verb/payload contract,
builds the target address from the endpoint root, the configured path
prefix and the caller's resource-query, attaches Basic authorization for
the login exchange and Bearer authorization otherwise (refreshing the
token via `login` when it is missing or expired), executes the request,
and classifies the response by status code and Content-Type header.

Modelling conventions:
  * `time.Time` instants are modelled as `Int` seconds; the zero value
    `time.Time{}` is modelled as `0`; `a.After(b)` is `a > b` (strict).
  * Go stdlib collaborators that are external to this repository are
    modelled as oracle inputs: the two HTTP round trips a call can make
    (the main request and, when refresh fires, the login request) are
    given as `HttpResponse` values in a `CallEnv`, and the
    `json.Unmarshal` decodings of the error body and the login body are
    given as functions in the same `CallEnv`.
  * `url.Parse` of the base URL in `Open` is an oracle input
    (`Option ParsedURL`); `url.Parse` of the fully built address and
    `http.NewRequest` never fail on the addresses the code builds and
    are not modelled as failure points.
  * `strings.ToUpper`, `strings.TrimLeft`/`TrimRight` with cutset "/"
    are modelled character-exactly on the ASCII inputs that occur here.
  * The payload (`data any`) is modelled by whether it is non-nil
    (`hasData`); JSON marshalling of the payload is not a failure point
    for any claim considered.
  * The Go code returns plain `error` values built with `fmt.Errorf`
    for every failure except the structured `*ErrorResponse`; `CallError`
    tags each distinct failure site of `Call` with the spec taxonomy name
    and carries the data the corresponding Go error message carries.
-/

deriving instance DecidableEq for Except

/-- strings.ToUpper on the ASCII method strings used by the client. -/
def goToUpper (s : String) : String := ⟨s.data.map Char.toUpper⟩

/-- strings.TrimLeft(s, "/"). -/
def trimLeftSlash (s : String) : String := ⟨s.data.dropWhile (fun c => c == '/')⟩

/-- strings.TrimRight(s, "/"). -/
def trimRightSlash (s : String) : String := ⟨(s.data.reverse.dropWhile (fun c => c == '/')).reverse⟩

/-- strings.TrimRight(strings.TrimLeft(s, "/"), "/") as on line 247 of the source. -/
def trimBothSlash (s : String) : String := trimRightSlash (trimLeftSlash s)

/-- `Client` (stratumclient.go lines 52-64).  The unexported Go field
`prefix` is named `pfx` (`prefix` is a Lean keyword) and the unexported
`url` field is kept as its rendered string `urlStr` (only
`c.url.String()` is ever used by `Call`). -/
structure Client where
  username : String
  password : String
  baseURL : String
  userAgent : String
  timeout : Int
  insecureSkipVerify : Bool
  pfx : String
  urlStr : String
  token : String
  validUntil : Int
  opened : Bool
deriving DecidableEq, Repr

/-- `LoginResponse` (lines 67-71). -/
structure LoginResponse where
  accessToken : String
  expiresIn : Int
  tokenType : String
deriving DecidableEq, Repr

/-- `BackendError` (lines 89-95). -/
structure BackendError where
  sql : String
  severity : String
  message : String
  detail : String
  code : String
deriving DecidableEq, Repr

/-- The JSON-decoded part of `ErrorResponse` (lines 79-84): the fields
`json.Unmarshal` can fill (`backend`, `error`); `Status`/`StatusCode`
are attached afterwards by `Call` (lines 323-324). -/
structure ErrJson where
  backend : Option BackendError
  message : String
deriving DecidableEq, Repr

/-- `ErrorResponse` (lines 79-84) as returned from `Call`. -/
structure ErrorResponse where
  backend : Option BackendError
  message : String
  status : String
  statusCode : Nat
deriving DecidableEq, Repr

/-- The distinct failure outcomes of `Call`, tagged with the spec
taxonomy names.  Each constructor corresponds to one `return nil, ...`
site of `Call` (or an error propagated out of `login`):
  * `usageError` — line 238, `fmt.Errorf("post data not allowed with method %s", method)`;
  * `notOpenedError` — line 245, `fmt.Errorf("config not opened with Open()")`;
  * `apiError` — line 326, the structured `*ErrorResponse`;
  * `serializationError` — line 321 or 349, a `json.Unmarshal` failure;
  * `transportError` — line 328, `fmt.Errorf("%s", resp.Status)`: the
    message is exactly the HTTP status line;
  * `protocolError` — line 332, `fmt.Errorf("server responded with unknown Content-Type: %s", ct)`. -/
inductive CallError where
  | usageError (msg : String)
  | notOpenedError
  | apiError (e : ErrorResponse)
  | serializationError
  | transportError (statusLine : String)
  | protocolError (ct : String)
deriving DecidableEq, Repr

/-- An HTTP response as `Call` observes it: status code, status line,
the `Content-Type` header, and the body bytes (as a string). -/
structure HttpResponse where
  statusCode : Nat
  status : String
  contentType : String
  body : String
deriving DecidableEq, Repr

/-- Oracle environment for one `Call` invocation: the current instant,
the response to the main request, the response to the login request
(when the credential refresh fires), and the `json.Unmarshal` outcomes
for error bodies and for the login body. -/
structure CallEnv where
  now : Int
  mainResp : HttpResponse
  loginResp : HttpResponse
  decodeErrMain : String → Option ErrJson
  decodeErrLogin : String → Option ErrJson
  decodeLogin : String → Option LoginResponse

/-- Response classification, `Call` lines 316-335: non-(200|201) with
JSON content type decodes the body into the structured error (decode
failure is itself the error), attaching status line and code; with
non-JSON content type the status line is the whole error; (200|201)
with non-JSON content type is the unknown-content-type error; otherwise
the raw body is returned. -/
def classify (decodeErr : String → Option ErrJson) (resp : HttpResponse) :
    Except CallError String :=
  let ct := resp.contentType
  if ¬(resp.statusCode = 200 ∨ resp.statusCode = 201) then
    if ct = "application/json" then
      match decodeErr resp.body with
      | none => Except.error CallError.serializationError
      | some j =>
          Except.error (CallError.apiError
            { backend := j.backend, message := j.message
              status := resp.status, statusCode := resp.statusCode })
    else
      Except.error (CallError.transportError resp.status)
  else
    if ct ≠ "application/json" then
      Except.error (CallError.protocolError ct)
    else
      Except.ok resp.body

/-- The address built for a non-login call, `Call` line 247:
`TrimRight(url,"/") + "/" + TrimRight(TrimLeft(prefix,"/"),"/") + "/" + TrimLeft(query,"/")`. -/
def joinAddress (root pfx query : String) : String :=
  trimRightSlash root ++ "/" ++ trimBothSlash pfx ++ "/" ++ trimLeftSlash query

/-- `login` (lines 341-356): a `Call("GET", "login/v1", nil)` unfolded
on its own path (address root+"/login/v1", Basic authorization, executed
against `env.loginResp` and classified with `env.decodeErrLogin`),
followed by `json.Unmarshal` of the body into a `LoginResponse` and the
assignments `c.token = resp.AccessToken`,
`c.validUntil = time.Now().Add(resp.ExpiresIn seconds)`.  On any error
the client is returned unchanged (the Go method returns before the
assignments). -/
def Client.login (c : Client) (env : CallEnv) : Except CallError Client :=
  match classify env.decodeErrLogin env.loginResp with
  | Except.error e => Except.error e
  | Except.ok body =>
      match env.decodeLogin body with
      | none => Except.error CallError.serializationError
      | some lr =>
          Except.ok { c with token := lr.accessToken
                             validUntil := env.now + lr.expiresIn }

/-- Observable trace of one `Call`: how many login exchanges were
performed, whether the main request was dispatched over the network,
the Bearer token set in the Authorization header (none on the Basic
path or when the call aborted first), and the address built for the
main request (none when the call aborted before building it). -/
structure CallTrace where
  loginCount : Nat
  dispatched : Bool
  bearer : Option String
  addr : Option String
deriving DecidableEq, Repr

/-- Result of one `Call`: the returned value, the client state after
the call, and the observable trace. -/
structure CallOutcome where
  result : Except CallError String
  client : Client
  trace : CallTrace
deriving Repr

/-- The authorization-and-execute tail of `Call` (lines 282-335), after
the address has been built.  On the Basic branch (`query == "login/v1"
&& method == "GET"`, line 282) the request is executed directly.
Otherwise (lines 285-293): when the token is missing or `time.Now()` is
after `validUntil`, the credential is cleared and `login` is invoked;
a login failure aborts the call; then the Bearer header is set from the
current token and the request is executed. -/
def Client.authExec (c : Client) (env : CallEnv) (method query addr : String) : CallOutcome :=
  if query = "login/v1" ∧ method = "GET" then
    { result := classify env.decodeErrMain env.mainResp, client := c
      trace := { loginCount := 0, dispatched := true, bearer := none, addr := some addr } }
  else
    if c.token = "" ∨ env.now > c.validUntil then
      let c1 : Client := { c with token := "", validUntil := 0 }
      match c1.login env with
      | Except.error e =>
          { result := Except.error e, client := c1
            trace := { loginCount := 1, dispatched := false, bearer := none, addr := some addr } }
      | Except.ok c2 =>
          { result := classify env.decodeErrMain env.mainResp, client := c2
            trace := { loginCount := 1, dispatched := true, bearer := some c2.token, addr := some addr } }
    else
      { result := classify env.decodeErrMain env.mainResp, client := c
        trace := { loginCount := 0, dispatched := true, bearer := some c.token, addr := some addr } }

/-- `Call` (lines 234-336).  Uppercases the method; rejects a non-nil
payload on GET; builds the address (login resource directly against the
root, otherwise requiring `opened` and joining root, prefix and query
with the trimming of line 247); then authorizes and executes via
`Client.authExec`. -/
def Client.call (c : Client) (env : CallEnv) (method0 query : String) (hasData : Bool) :
    CallOutcome :=
  let method := goToUpper method0
  if hasData = true ∧ method = "GET" then
    { result := Except.error (CallError.usageError
        ("post data not allowed with method " ++ method))
      client := c
      trace := { loginCount := 0, dispatched := false, bearer := none, addr := none } }
  else
    let root := trimRightSlash c.urlStr
    if query = "login/v1" then
      c.authExec env method query (root ++ "/" ++ query)
    else
      if c.opened = false then
        { result := Except.error CallError.notOpenedError, client := c
          trace := { loginCount := 0, dispatched := false, bearer := none, addr := none } }
      else
        c.authExec env method query (joinAddress c.urlStr c.pfx query)

/-- Configuration-time failures of `Open` (lines 133-165), in source
order: the three missing-field checks, a `url.Parse` failure, the
missing-path check, and a failed login exchange. -/
inductive OpenErr where
  | missingUsername
  | missingPassword
  | missingBaseURL
  | parseError
  | missingPath
  | loginFailed (e : CallError)
deriving DecidableEq, Repr

/-- Whether an `OpenErr` is a configuration error (everything `Open`
returns before attempting the login exchange). -/
def OpenErr.isConfig : OpenErr → Bool
  | OpenErr.loginFailed _ => false
  | _ => true

/-- The outcome of `url.Parse(c.BaseURL)` in `Open`: the path
component, the URL rendered as parsed (`u.String()`), and the URL
rendered after `c.url.Path = ""` clears the path. -/
structure ParsedURL where
  path : String
  fullStr : String
  rootStr : String
deriving DecidableEq, Repr

/-- The timeout defaulting of `Open` (lines 143-145):
`if c.Timeout == 0 { c.Timeout = 30 }`. -/
def Client.withTimeoutDefault (c : Client) : Client :=
  if c.timeout = 0 then { c with timeout := 30 } else c

/-- `Open` (lines 133-165).  Validates Username, Password and BaseURL
non-empty; defaults Timeout to 30; parses BaseURL (oracle `parsed`);
stores the URL; requires a non-empty path component; moves the path
into the prefix and clears it from the stored URL; performs the login
exchange; on success sets `opened`.  Returns the error if any, the
resulting client state, and whether the login exchange (the only
network activity) was attempted. -/
def Client.Open (c : Client) (parsed : Option ParsedURL) (env : CallEnv) :
    Option OpenErr × Client × Bool :=
  if c.username = "" then (some OpenErr.missingUsername, c, false)
  else if c.password = "" then (some OpenErr.missingPassword, c, false)
  else if c.baseURL = "" then (some OpenErr.missingBaseURL, c, false)
  else
    match parsed with
    | none => (some OpenErr.parseError, c.withTimeoutDefault, false)
    | some u =>
        if u.path = "" then
          (some OpenErr.missingPath, { c.withTimeoutDefault with urlStr := u.fullStr }, false)
        else
          match ({ c.withTimeoutDefault with urlStr := u.rootStr, pfx := u.path } : Client).login env with
          | Except.error e =>
              (some (OpenErr.loginFailed e),
               { c.withTimeoutDefault with urlStr := u.rootStr, pfx := u.path }, true)
          | Except.ok c3 => (none, { c3 with opened := true }, true)

/-! ### Helper predicates and lemmas about the slash trimming -/

/-- `s` does not begin with a slash. -/
def noLeadingSlash (s : String) : Prop := s.data.head? ≠ some '/'

/-- `s` does not end with a slash. -/
def noTrailingSlash (s : String) : Prop := s.data.getLast? ≠ some '/'

theorem head_dropWhileSlash (l : List Char) :
    (l.dropWhile (fun c => c == '/')).head? ≠ some '/' := by
  induction l with
  | nil => simp
  | cons a t ih =>
    by_cases h : a = '/'
    · simpa [List.dropWhile_cons, h] using ih
    · simp [List.dropWhile_cons, h]

theorem trimLeftSlash_noLeading (s : String) : noLeadingSlash (trimLeftSlash s) :=
  head_dropWhileSlash s.data

theorem trimRightSlash_noTrailing (s : String) : noTrailingSlash (trimRightSlash s) := by
  unfold noTrailingSlash trimRightSlash
  rw [List.getLast?_reverse]
  exact head_dropWhileSlash _

theorem head_rtrimSlash (l : List Char) (h : l.head? ≠ some '/') :
    ((l.reverse.dropWhile (fun c => c == '/')).reverse).head? ≠ some '/' := by
  cases l with
  | nil => simp
  | cons a t =>
    have ha : a ≠ '/' := by simpa using h
    rw [List.reverse_cons, List.dropWhile_append]
    by_cases he : (t.reverse.dropWhile (fun c => c == '/')).isEmpty
    · simp [he, List.dropWhile_cons, ha]
    · simp only [he, if_neg, Bool.false_eq_true, not_false_iff, List.reverse_append,
        List.reverse_cons, List.reverse_nil, List.nil_append, List.head?_cons]
      simpa using ha

theorem trimBothSlash_noLeading (s : String) : noLeadingSlash (trimBothSlash s) :=
  head_rtrimSlash _ (trimLeftSlash_noLeading s)

theorem trimBothSlash_noTrailing (s : String) : noTrailingSlash (trimBothSlash s) :=
  trimRightSlash_noTrailing _

theorem string_data_append (a b : String) : (a ++ b).data = a.data ++ b.data := rfl

theorem trimLeftSlash_slash_append (s : String) :
    trimLeftSlash ("/" ++ s) = trimLeftSlash s := by
  unfold trimLeftSlash
  rw [string_data_append]
  simp [List.dropWhile_cons]

theorem rtrim_append_slash (l : List Char) :
    ((l ++ ['/']).reverse.dropWhile (fun c => c == '/')).reverse
      = (l.reverse.dropWhile (fun c => c == '/')).reverse := by
  rw [List.reverse_append]
  simp [List.dropWhile_cons]

theorem trimRightSlash_append_slash (s : String) :
    trimRightSlash (s ++ "/") = trimRightSlash s := by
  unfold trimRightSlash
  rw [string_data_append]
  exact congrArg String.mk (rtrim_append_slash s.data)

theorem ltrim_append_slash_rtrim (l : List Char) :
    ((((l ++ ['/']).dropWhile (fun c => c == '/')).reverse.dropWhile
        (fun c => c == '/')).reverse)
      = (((l.dropWhile (fun c => c == '/')).reverse.dropWhile (fun c => c == '/')).reverse) := by
  induction l with
  | nil => simp [List.dropWhile_cons]
  | cons a t ih =>
    by_cases h : a = '/'
    · subst h
      rw [List.cons_append, List.dropWhile_cons_of_pos (by simp),
        List.dropWhile_cons_of_pos (by simp)]
      exact ih
    · rw [List.cons_append, List.dropWhile_cons_of_neg (by simpa using h),
        List.dropWhile_cons_of_neg (by simpa using h)]
      exact rtrim_append_slash (a :: t)

theorem trimBothSlash_append_slash (s : String) :
    trimBothSlash (s ++ "/") = trimBothSlash s := by
  unfold trimBothSlash trimRightSlash trimLeftSlash
  rw [string_data_append]
  exact congrArg String.mk (ltrim_append_slash_rtrim s.data)

theorem trimBothSlash_slash_append (s : String) :
    trimBothSlash ("/" ++ s) = trimBothSlash s := by
  unfold trimBothSlash
  rw [trimLeftSlash_slash_append]

/-! ### Unfolding lemmas for `Client.call` and `Client.authExec` -/

theorem call_nonlogin (c : Client) (env : CallEnv) (m q : String) (hd : Bool)
    (hpd : ¬(hd = true ∧ goToUpper m = "GET")) (hq : q ≠ "login/v1") (hop : c.opened = true) :
    c.call env m q hd = c.authExec env (goToUpper m) q (joinAddress c.urlStr c.pfx q) := by
  unfold Client.call
  rw [if_neg hpd, if_neg hq, if_neg (by simp [hop])]

theorem authExec_refresh (c : Client) (env : CallEnv) (m q a : String)
    (hb : ¬(q = "login/v1" ∧ m = "GET")) (hs : c.token = "" ∨ env.now > c.validUntil) :
    c.authExec env m q a =
      match ({ c with token := "", validUntil := 0 } : Client).login env with
      | Except.error e =>
          { result := Except.error e, client := { c with token := "", validUntil := 0 }
            trace := { loginCount := 1, dispatched := false, bearer := none, addr := some a } }
      | Except.ok c2 =>
          { result := classify env.decodeErrMain env.mainResp, client := c2
            trace := { loginCount := 1, dispatched := true, bearer := some c2.token, addr := some a } } := by
  unfold Client.authExec
  rw [if_neg hb, if_pos hs]

theorem authExec_fresh (c : Client) (env : CallEnv) (m q a : String)
    (hb : ¬(q = "login/v1" ∧ m = "GET")) (hs : ¬(c.token = "" ∨ env.now > c.validUntil)) :
    c.authExec env m q a =
      { result := classify env.decodeErrMain env.mainResp, client := c
        trace := { loginCount := 0, dispatched := true, bearer := some c.token, addr := some a } } := by
  unfold Client.authExec
  rw [if_neg hb, if_neg hs]

theorem authExec_addr (c : Client) (env : CallEnv) (m q a : String) :
    (c.authExec env m q a).trace.addr = some a := by
  by_cases hb : q = "login/v1" ∧ m = "GET"
  · unfold Client.authExec
    rw [if_pos hb]
  · by_cases hs : c.token = "" ∨ env.now > c.validUntil
    · rw [authExec_refresh c env m q a hb hs]
      cases ({ c with token := "", validUntil := 0 } : Client).login env <;> rfl
    · rw [authExec_fresh c env m q a hb hs]

/-! ### Concrete fixtures used by witnesses and counterexamples -/

/-- A successfully opened client: prefix `v1` split off the base URL,
a held token `abc` expiring at instant 100. -/
def sampleClient : Client :=
  { username := "u", password := "p", baseURL := "https://server/v1"
    userAgent := "", timeout := 30, insecureSkipVerify := false
    pfx := "v1", urlStr := "https://server"
    token := "abc", validUntil := 100, opened := true }

/-- A 200 JSON response. -/
def jsonOk : HttpResponse :=
  { statusCode := 200, status := "200 OK", contentType := "application/json", body := "[]" }

/-- An environment at instant 50 (before `sampleClient`'s expiry) whose
main and login requests both answer 200 JSON. -/
def sampleEnv : CallEnv :=
  { now := 50
    mainResp := jsonOk
    loginResp := { statusCode := 200, status := "200 OK"
                   contentType := "application/json", body := "LB" }
    decodeErrMain := fun _ => none
    decodeErrLogin := fun _ => none
    decodeLogin := fun _ => some { accessToken := "tok2", expiresIn := 60, tokenType := "bearer" } }

/-- `sampleEnv` at the exact expiry instant of `sampleClient`. -/
def envAtExpiry : CallEnv := { sampleEnv with now := 100 }

/-- `sampleEnv` strictly past the expiry instant of `sampleClient`. -/
def envLate : CallEnv := { sampleEnv with now := 150 }

/-! ### C3 -/

/-- C3: for every call with a non-nil payload whose verb uppercases to
GET, the dispatch fails immediately with the usage error
("post data not allowed with method GET"): the client is returned
unchanged (no credential refresh), no login is performed and no request
is dispatched. -/
theorem c3_payload_with_get (c : Client) (env : CallEnv) (m q : String)
    (hup : goToUpper m = "GET") :
    c.call env m q true =
      { result := Except.error (CallError.usageError
          ("post data not allowed with method " ++ goToUpper m))
        client := c
        trace := { loginCount := 0, dispatched := false, bearer := none, addr := none } } := by
  unfold Client.call
  rw [if_pos ⟨rfl, hup⟩]

/-- Witness for C3 at the concrete verb "get" with a payload. -/
theorem c3_witness :
    goToUpper "get" = "GET" ∧
    (sampleClient.call sampleEnv "get" "platform" true).result =
      Except.error (CallError.usageError "post data not allowed with method GET") ∧
    (sampleClient.call sampleEnv "get" "platform" true).trace.loginCount = 0 ∧
    (sampleClient.call sampleEnv "get" "platform" true).trace.dispatched = false := by
  have h := c3_payload_with_get sampleClient sampleEnv "get" "platform" rfl
  exact ⟨rfl, by rw [h]; rfl, by rw [h], by rw [h]⟩

/-! ### C6, C7, C10: response classification -/

theorem classify_ok_nonjson (resp : HttpResponse) (d : String → Option ErrJson)
    (hs : resp.statusCode = 200 ∨ resp.statusCode = 201)
    (hct : resp.contentType ≠ "application/json") :
    classify d resp = Except.error (CallError.protocolError resp.contentType) ∧
    ∀ b, classify d resp ≠ Except.ok b := by
  have h : ¬¬(resp.statusCode = 200 ∨ resp.statusCode = 201) := not_not_intro hs
  unfold classify
  rw [if_neg h, if_pos hct]
  exact ⟨rfl, fun b => by simp⟩

/-- C6: every non-2xx response with JSON content type decodes into the
structured API error carrying the HTTP status code, status line,
top-level message and the optional nested backend fields; a body that
fails to decode surfaces as the serialization error; and every non-2xx
response with a non-JSON content type yields the transport error whose
message is exactly the HTTP status line. -/
theorem c6_non2xx_classification (resp : HttpResponse) (d : String → Option ErrJson)
    (h2 : ¬(200 ≤ resp.statusCode ∧ resp.statusCode < 300)) :
    (resp.contentType = "application/json" →
      (∀ j, d resp.body = some j →
        classify d resp = Except.error (CallError.apiError
          { backend := j.backend, message := j.message
            status := resp.status, statusCode := resp.statusCode })) ∧
      (d resp.body = none →
        classify d resp = Except.error CallError.serializationError)) ∧
    (resp.contentType ≠ "application/json" →
      classify d resp = Except.error (CallError.transportError resp.status)) := by
  have hne : ¬(resp.statusCode = 200 ∨ resp.statusCode = 201) := by omega
  unfold classify
  rw [if_pos hne]
  constructor
  · intro hct
    rw [if_pos hct]
    constructor
    · intro j hj
      rw [hj]
    · intro hj
      rw [hj]
  · intro hct
    rw [if_neg hct]

/-- Witness for C6 at a concrete 404 response, for both content types. -/
theorem c6_witness :
    ¬(200 ≤ 404 ∧ 404 < 300) ∧
    classify (fun _ => some { backend := none, message := "boom" })
        { statusCode := 404, status := "404 Not Found"
          contentType := "application/json", body := "EB" }
      = Except.error (CallError.apiError
          { backend := none, message := "boom"
            status := "404 Not Found", statusCode := 404 }) ∧
    classify (fun _ => some { backend := none, message := "boom" })
        { statusCode := 404, status := "404 Not Found"
          contentType := "text/plain", body := "EB" }
      = Except.error (CallError.transportError "404 Not Found") := by
  refine ⟨by omega, ?_, ?_⟩
  · exact ((c6_non2xx_classification
      { statusCode := 404, status := "404 Not Found"
        contentType := "application/json", body := "EB" }
      (fun _ => some { backend := none, message := "boom" }) (by decide)).1 rfl).1 _ rfl
  · exact (c6_non2xx_classification
      { statusCode := 404, status := "404 Not Found"
        contentType := "text/plain", body := "EB" }
      (fun _ => some { backend := none, message := "boom" }) (by decide)).2 (by decide)

/-- C7 counterexample: a response with the 2xx status 204 and a
non-JSON content type is classified as the transport error carrying the
status line, not as the unexpected-content-type protocol error — the
code treats only 200 and 201 as success statuses, so the claim fails
for the other 2xx statuses. -/
theorem c7_counterexample :
    classify (fun _ => none)
        { statusCode := 204, status := "204 No Content"
          contentType := "text/plain", body := "" }
      = Except.error (CallError.transportError "204 No Content") ∧
    classify (fun _ => none)
        { statusCode := 204, status := "204 No Content"
          contentType := "text/plain", body := "" }
      ≠ Except.error (CallError.protocolError "text/plain") := by
  exact ⟨rfl, by decide⟩

/-- C7 (amended): every response with status 200 or 201 and a non-JSON
content type yields the unexpected-content-type protocol error and is
never returned as a success. -/
theorem c7_success_status_nonjson (resp : HttpResponse) (d : String → Option ErrJson)
    (hs : resp.statusCode = 200 ∨ resp.statusCode = 201)
    (hct : resp.contentType ≠ "application/json") :
    classify d resp = Except.error (CallError.protocolError resp.contentType) ∧
    ∀ b, classify d resp ≠ Except.ok b :=
  classify_ok_nonjson resp d hs hct

/-- Witness for C7 at a concrete 200 text/html response. -/
theorem c7_witness :
    (200 = 200 ∨ 200 = 201) ∧ ("text/html" : String) ≠ "application/json" ∧
    classify (fun _ => none)
        { statusCode := 200, status := "200 OK", contentType := "text/html", body := "x" }
      = Except.error (CallError.protocolError "text/html") := by
  refine ⟨Or.inl rfl, by decide, ?_⟩
  exact (c7_success_status_nonjson
    { statusCode := 200, status := "200 OK", contentType := "text/html", body := "x" }
    (fun _ => none) (Or.inl rfl) (by decide)).1

/-- C10: the Content-Type comparison is exact string equality with
"application/json": any content type of the form
"application/json;&lt;params&gt;" is classified as non-JSON, so a 200
response carrying such a header is rejected with the
unexpected-content-type protocol error rather than returned as a
success. -/
theorem c10_exact_content_type (resp : HttpResponse) (d : String → Option ErrJson)
    (rest : String)
    (hct : resp.contentType = "application/json;" ++ rest) (hs : resp.statusCode = 200) :
    classify d resp = Except.error (CallError.protocolError resp.contentType) ∧
    ∀ b, classify d resp ≠ Except.ok b := by
  have hne : resp.contentType ≠ "application/json" := by
    rw [hct]
    intro h
    have h2 := congrArg String.length h
    rw [String.length_append] at h2
    have e1 : ("application/json;" : String).length = 17 := rfl
    have e2 : ("application/json" : String).length = 16 := rfl
    omega
  exact classify_ok_nonjson resp d (Or.inl hs) hne

/-- Witness for C10 at the concrete header
"application/json; charset=utf-8" on a 200 response. -/
theorem c10_witness :
    ("application/json; charset=utf-8" : String) = "application/json;" ++ " charset=utf-8" ∧
    classify (fun _ => none)
        { statusCode := 200, status := "200 OK"
          contentType := "application/json; charset=utf-8", body := "[]" }
      = Except.error (CallError.protocolError "application/json; charset=utf-8") := by
  refine ⟨rfl, ?_⟩
  exact (c10_exact_content_type
    { statusCode := 200, status := "200 OK"
      contentType := "application/json; charset=utf-8", body := "[]" }
    (fun _ => none) " charset=utf-8" rfl rfl).1

/-! ### C8 -/

/-- A never-opened client with no credential state. -/
def freshClient : Client :=
  { username := "u", password := "p", baseURL := "https://server/v1"
    userAgent := "", timeout := 0, insecureSkipVerify := false
    pfx := "", urlStr := ""
    token := "", validUntil := 0, opened := false }

/-- C8 counterexample: a non-login GET call carrying a payload on a
never-opened client fails with the usage error, not the not-opened
error — the payload check on line 237 runs before the opened check on
line 244, refuting "every non-login verb call before Initialize fails
with NotOpenedError". -/
theorem c8_counterexample :
    (freshClient.call sampleEnv "GET" "platform" true).result =
      Except.error (CallError.usageError "post data not allowed with method GET") ∧
    (freshClient.call sampleEnv "GET" "platform" true).result ≠
      Except.error CallError.notOpenedError ∧
    freshClient.opened = false := by
  exact ⟨rfl, by decide, rfl⟩

/-- C8 (amended): every non-login verb call that passes the
payload check (i.e. is not a read with a non-nil payload), made before
a successful Open (opened = false), fails with the not-opened error,
dispatches no request, performs no login, and leaves the client
unchanged. -/
theorem c8_not_opened (c : Client) (env : CallEnv) (m q : String) (hd : Bool)
    (hpd : ¬(hd = true ∧ goToUpper m = "GET")) (hq : q ≠ "login/v1")
    (hop : c.opened = false) :
    c.call env m q hd =
      { result := Except.error CallError.notOpenedError, client := c
        trace := { loginCount := 0, dispatched := false, bearer := none, addr := none } } := by
  unfold Client.call
  rw [if_neg hpd, if_neg hq, if_pos hop]

/-- Witness for C8: a payload-free GET before Open. -/
theorem c8_witness :
    freshClient.opened = false ∧
    (freshClient.call sampleEnv "GET" "platform" false).result =
      Except.error CallError.notOpenedError ∧
    (freshClient.call sampleEnv "GET" "platform" false).trace.dispatched = false := by
  have h := c8_not_opened freshClient sampleEnv "GET" "platform" false
    (by simp) (by decide) rfl
  exact ⟨rfl, by rw [h], by rw [h]⟩

/-! ### C9 -/

/-- An environment whose login request fails (500, non-JSON). -/
def failLoginEnv : CallEnv :=
  { now := 150
    mainResp := jsonOk
    loginResp := { statusCode := 500, status := "500 Internal Server Error"
                   contentType := "text/plain", body := "" }
    decodeErrMain := fun _ => none
    decodeErrLogin := fun _ => none
    decodeLogin := fun _ => none }

/-- C9: when the credential refresh of an authenticated dispatch fires
and the login exchange fails, the call surfaces exactly that login
error, no request is dispatched, and the client is left with the
credential cleared: the old token and expiry do not survive (token
empty, expiry the zero instant). -/
theorem c9_failed_refresh_clears (c : Client) (env : CallEnv) (m q : String) (hd : Bool)
    (e : CallError)
    (hop : c.opened = true) (hq : q ≠ "login/v1")
    (hpd : ¬(hd = true ∧ goToUpper m = "GET"))
    (hstale : c.token = "" ∨ env.now > c.validUntil)
    (hfail : ({ c with token := "", validUntil := 0 } : Client).login env = Except.error e) :
    (c.call env m q hd).result = Except.error e ∧
    (c.call env m q hd).client.token = "" ∧
    (c.call env m q hd).client.validUntil = 0 ∧
    (c.call env m q hd).trace.dispatched = false ∧
    (c.call env m q hd).trace.bearer = none := by
  have hb : ¬(q = "login/v1" ∧ goToUpper m = "GET") := fun h => hq h.1
  rw [call_nonlogin c env m q hd hpd hq hop,
    authExec_refresh c env (goToUpper m) q _ hb hstale, hfail]
  exact ⟨rfl, rfl, rfl, rfl, rfl⟩

/-- Witness for C9: expired token, login answers 500 text/plain. -/
theorem c9_witness :
    (sampleClient.token = "" ∨ failLoginEnv.now > sampleClient.validUntil) ∧
    ({ sampleClient with token := "", validUntil := 0 } : Client).login failLoginEnv =
      Except.error (CallError.transportError "500 Internal Server Error") ∧
    (sampleClient.call failLoginEnv "GET" "platform" false).client.token = "" ∧
    (sampleClient.call failLoginEnv "GET" "platform" false).result =
      Except.error (CallError.transportError "500 Internal Server Error") := by
  have h := c9_failed_refresh_clears sampleClient failLoginEnv "GET" "platform" false
    (CallError.transportError "500 Internal Server Error")
    rfl (by decide) (by simp) (Or.inr (by decide)) rfl
  exact ⟨Or.inr (by decide), rfl, h.2.1, h.1⟩

/-! ### C1 -/

/-- C1 counterexample: with a held token and the current instant
exactly equal to the stored expiry instant ("at the expiry", as the
claim covers), the code performs no login and sets the Bearer header
from the old token `abc`: the condition on line 285 uses the strict
`time.Now().After(c.validUntil)`, so "at or past the expiry triggers a
refresh" and "a token is used only strictly before its expiry" both
fail at this input. -/
theorem c1_counterexample :
    sampleClient.token = "abc" ∧ sampleClient.validUntil = 100 ∧ envAtExpiry.now = 100 ∧
    (sampleClient.call envAtExpiry "GET" "platform" false).trace.loginCount = 0 ∧
    (sampleClient.call envAtExpiry "GET" "platform" false).trace.bearer = some "abc" := by
  exact ⟨rfl, rfl, rfl, by decide, by decide⟩

/-- C1 (amended): for every authenticated (non-login) dispatch holding
a token, the credential is cleared and the login exchange re-invoked
before the Bearer header is set exactly when the current instant is
strictly past the stored expiry; when the current instant is at or
before the expiry the held token is used as the Bearer token with no
login and no state change. -/
theorem c1_expiry_boundary (c : Client) (env : CallEnv) (m q : String) (hd : Bool)
    (hop : c.opened = true) (hq : q ≠ "login/v1")
    (hpd : ¬(hd = true ∧ goToUpper m = "GET")) (htok : c.token ≠ "") :
    (env.now > c.validUntil →
      (c.call env m q hd).trace.loginCount = 1 ∧
      (c.call env m q hd).trace.bearer =
        (match ({ c with token := "", validUntil := 0 } : Client).login env with
         | Except.ok c2 => some c2.token
         | Except.error _ => none)) ∧
    (env.now ≤ c.validUntil →
      (c.call env m q hd).trace.loginCount = 0 ∧
      (c.call env m q hd).trace.bearer = some c.token ∧
      (c.call env m q hd).client = c) := by
  have hb : ¬(q = "login/v1" ∧ goToUpper m = "GET") := fun h => hq h.1
  rw [call_nonlogin c env m q hd hpd hq hop]
  constructor
  · intro hgt
    rw [authExec_refresh c env (goToUpper m) q _ hb (Or.inr hgt)]
    cases hl : ({ c with token := "", validUntil := 0 } : Client).login env with
    | error e => exact ⟨rfl, rfl⟩
    | ok c2 => exact ⟨rfl, rfl⟩
  · intro hle
    have hs : ¬(c.token = "" ∨ env.now > c.validUntil) := by
      rintro (h | h)
      · exact htok h
      · omega
    rw [authExec_fresh c env (goToUpper m) q _ hb hs]
    exact ⟨rfl, rfl, rfl⟩

/-- Witness for C1: strictly past expiry, exactly one login fires. -/
theorem c1_witness :
    sampleClient.token ≠ "" ∧ envLate.now > sampleClient.validUntil ∧
    (sampleClient.call envLate "GET" "platform" false).trace.loginCount = 1 := by
  have h := c1_expiry_boundary sampleClient envLate "GET" "platform" false
    rfl (by decide) (by simp) (by decide)
  exact ⟨by decide, by decide, (h.1 (by decide)).1⟩

/-! ### C2 -/

/-- Environment for a login at instant 1000 whose login response is
200 JSON and decodes to access_token "abc", expires_in 60. -/
def loginEnvT : CallEnv :=
  { now := 1000
    mainResp := jsonOk
    loginResp := { statusCode := 200, status := "200 OK"
                   contentType := "application/json", body := "LB" }
    decodeErrMain := fun _ => none
    decodeErrLogin := fun _ => none
    decodeLogin := fun _ => some { accessToken := "abc", expiresIn := 60, tokenType := "bearer" } }

/-- `loginEnvT` advanced to instant 1061 (one second past the expiry). -/
def loginEnvT2 : CallEnv := { loginEnvT with now := 1061 }

/-- The client produced by the login of `loginEnvT`. -/
def clientAfterLoginT : Client := { sampleClient with token := "abc", validUntil := 1060 }

/-- C2: a successful login exchange stores the new token and the new
expiry now + expires_in, overwriting any previous token/expiry; and in
the end-to-end scenario — login at time T with expires_in 60, so stored
expiry T+60 — an authenticated call at T+61 performs exactly one second
login before the original call proceeds (is dispatched with the fresh
Bearer token). -/
theorem c2_login_expiry (c : Client) (env : CallEnv) (body : String) (lr : LoginResponse)
    (hcl : classify env.decodeErrLogin env.loginResp = Except.ok body)
    (hdl : env.decodeLogin body = some lr) :
    c.login env = Except.ok { c with token := lr.accessToken
                                     validUntil := env.now + lr.expiresIn } ∧
    (∀ (T : Int) (env2 : CallEnv) (cL : Client),
      env.now = T → lr.expiresIn = 60 →
      c.login env = Except.ok cL → cL.opened = true → env2.now = T + 61 →
      cL.validUntil = T + 60 ∧
      (cL.call env2 "GET" "platform" false).trace.loginCount = 1 ∧
      (∀ c3 : Client,
        ({ cL with token := "", validUntil := 0 } : Client).login env2 = Except.ok c3 →
        (cL.call env2 "GET" "platform" false).trace.dispatched = true ∧
        (cL.call env2 "GET" "platform" false).trace.bearer = some c3.token)) := by
  have h1 : c.login env =
      Except.ok { c with token := lr.accessToken, validUntil := env.now + lr.expiresIn } := by
    unfold Client.login
    simp only [hcl, hdl]
  refine ⟨h1, ?_⟩
  intro T env2 cL hT h60 hcL hop hnow
  rw [h1] at hcL
  injection hcL with h2
  have hvu : cL.validUntil = T + 60 := by
    rw [← h2]
    show env.now + lr.expiresIn = T + 60
    rw [hT, h60]
  have hq : ("platform" : String) ≠ "login/v1" := by decide
  have hpd : ¬((false : Bool) = true ∧ goToUpper "GET" = "GET") := by simp
  have hb : ¬(("platform" : String) = "login/v1" ∧ goToUpper "GET" = "GET") := fun h => hq h.1
  have hstale : cL.token = "" ∨ env2.now > cL.validUntil := Or.inr (by rw [hnow, hvu]; omega)
  refine ⟨hvu, ?_, ?_⟩
  · rw [call_nonlogin cL env2 "GET" "platform" false hpd hq hop,
      authExec_refresh cL env2 (goToUpper "GET") "platform" _ hb hstale]
    cases hl : ({ cL with token := "", validUntil := 0 } : Client).login env2 with
    | error e => rfl
    | ok c2 => rfl
  · intro c3 h3
    rw [call_nonlogin cL env2 "GET" "platform" false hpd hq hop,
      authExec_refresh cL env2 (goToUpper "GET") "platform" _ hb hstale, h3]
    exact ⟨rfl, rfl⟩

/-- Witness for C2: login at T = 1000 stores expiry 1060; the call at
1061 performs exactly one second login. -/
theorem c2_witness :
    classify loginEnvT.decodeErrLogin loginEnvT.loginResp = Except.ok "LB" ∧
    loginEnvT.decodeLogin "LB" =
      some { accessToken := "abc", expiresIn := 60, tokenType := "bearer" } ∧
    sampleClient.login loginEnvT = Except.ok clientAfterLoginT ∧
    clientAfterLoginT.validUntil = 1000 + 60 ∧
    (clientAfterLoginT.call loginEnvT2 "GET" "platform" false).trace.loginCount = 1 := by
  have h := (c2_login_expiry sampleClient loginEnvT "LB"
      { accessToken := "abc", expiresIn := 60, tokenType := "bearer" } rfl rfl).2
      1000 loginEnvT2 clientAfterLoginT rfl rfl (by decide) rfl (by decide)
  exact ⟨rfl, rfl, by decide, h.1, h.2.1⟩

/-! ### C4 -/

theorem withTimeoutDefault_opened (c : Client) : c.withTimeoutDefault.opened = c.opened := by
  unfold Client.withTimeoutDefault
  split <;> rfl

theorem withTimeoutDefault_token (c : Client) : c.withTimeoutDefault.token = c.token := by
  unfold Client.withTimeoutDefault
  split <;> rfl

theorem withTimeoutDefault_validUntil (c : Client) :
    c.withTimeoutDefault.validUntil = c.validUntil := by
  unfold Client.withTimeoutDefault
  split <;> rfl

theorem Open_missingPath (c : Client) (u : ParsedURL) (env : CallEnv)
    (h1 : ¬c.username = "") (h2 : ¬c.password = "") (h3 : ¬c.baseURL = "")
    (hp : u.path = "") :
    c.Open (some u) env =
      (some OpenErr.missingPath, { c.withTimeoutDefault with urlStr := u.fullStr }, false) := by
  unfold Client.Open
  simp only [if_neg h1, if_neg h2, if_neg h3]
  rw [if_pos hp]

/-- C4: initialization with an empty username, password or base URL, or
with a base endpoint whose parsed path component is empty, fails with a
configuration error, attempts no login exchange (the only network
activity of Open), leaves opened at its prior value (false for a fresh
client), and leaves the credential state (token, expiry) untouched. -/
theorem c4_open_validation (c : Client) (parsed : Option ParsedURL) (env : CallEnv)
    (h : c.username = "" ∨ c.password = "" ∨ c.baseURL = "" ∨
         (∃ u, parsed = some u ∧ u.path = "")) :
    ∃ e, (c.Open parsed env).1 = some e ∧ e.isConfig = true ∧
      (c.Open parsed env).2.2 = false ∧
      (c.Open parsed env).2.1.opened = c.opened ∧
      (c.Open parsed env).2.1.token = c.token ∧
      (c.Open parsed env).2.1.validUntil = c.validUntil := by
  by_cases h1 : c.username = ""
  · unfold Client.Open
    rw [if_pos h1]
    exact ⟨OpenErr.missingUsername, rfl, rfl, rfl, rfl, rfl, rfl⟩
  · by_cases h2 : c.password = ""
    · unfold Client.Open
      rw [if_neg h1, if_pos h2]
      exact ⟨OpenErr.missingPassword, rfl, rfl, rfl, rfl, rfl, rfl⟩
    · by_cases h3 : c.baseURL = ""
      · unfold Client.Open
        rw [if_neg h1, if_neg h2, if_pos h3]
        exact ⟨OpenErr.missingBaseURL, rfl, rfl, rfl, rfl, rfl, rfl⟩
      · obtain ⟨u, hpu, hpath⟩ := ((h.resolve_left h1).resolve_left h2).resolve_left h3
        rw [hpu, Open_missingPath c u env h1 h2 h3 hpath]
        exact ⟨OpenErr.missingPath, rfl, rfl, rfl,
          withTimeoutDefault_opened c, withTimeoutDefault_token c,
          withTimeoutDefault_validUntil c⟩

/-- Witness for C4: empty username on a fresh client. -/
theorem c4_witness :
    ({ freshClient with username := "" } : Client).username = "" ∧
    (∃ e, (({ freshClient with username := "" } : Client).Open
        (some { path := "v1", fullStr := "https://server/v1", rootStr := "https://server" })
        sampleEnv).1 = some e ∧ e.isConfig = true ∧
      (({ freshClient with username := "" } : Client).Open
        (some { path := "v1", fullStr := "https://server/v1", rootStr := "https://server" })
        sampleEnv).2.2 = false ∧
      (({ freshClient with username := "" } : Client).Open
        (some { path := "v1", fullStr := "https://server/v1", rootStr := "https://server" })
        sampleEnv).2.1.opened = ({ freshClient with username := "" } : Client).opened ∧
      (({ freshClient with username := "" } : Client).Open
        (some { path := "v1", fullStr := "https://server/v1", rootStr := "https://server" })
        sampleEnv).2.1.token = ({ freshClient with username := "" } : Client).token ∧
      (({ freshClient with username := "" } : Client).Open
        (some { path := "v1", fullStr := "https://server/v1", rootStr := "https://server" })
        sampleEnv).2.1.validUntil = ({ freshClient with username := "" } : Client).validUntil) :=
  ⟨rfl, c4_open_validation { freshClient with username := "" }
    (some { path := "v1", fullStr := "https://server/v1", rootStr := "https://server" })
    sampleEnv (Or.inl rfl)⟩

/-! ### C5 -/

/-- C5: for every opened session and every non-login dispatch passing
the payload check, the built address is root-trimmed ++ "/" ++
prefix-core ++ "/" ++ query-left-trimmed, where the trimmed root has no
trailing slash, the trimmed prefix has neither a leading nor a trailing
slash, and the trimmed query has no leading slash — exactly one
separator at each segment boundary; the address is invariant under
extra leading/trailing slashes on the configured prefix and extra
leading slashes on the caller's query; concretely, root
"https://server", prefix "/v1/" and query "/platform/?x=1" yield
"https://server/v1/platform/?x=1". -/
theorem c5_address_join (c : Client) (env : CallEnv) (m q : String) (hd : Bool)
    (hop : c.opened = true) (hq : q ≠ "login/v1")
    (hpd : ¬(hd = true ∧ goToUpper m = "GET"))
    (hp : trimBothSlash c.pfx ≠ "") :
    (c.call env m q hd).trace.addr = some (joinAddress c.urlStr c.pfx q) ∧
    noTrailingSlash (trimRightSlash c.urlStr) ∧
    noLeadingSlash (trimBothSlash c.pfx) ∧ noTrailingSlash (trimBothSlash c.pfx) ∧
    noLeadingSlash (trimLeftSlash q) ∧
    joinAddress c.urlStr ("/" ++ c.pfx) q = joinAddress c.urlStr c.pfx q ∧
    joinAddress c.urlStr (c.pfx ++ "/") q = joinAddress c.urlStr c.pfx q ∧
    joinAddress c.urlStr c.pfx ("/" ++ q) = joinAddress c.urlStr c.pfx q ∧
    joinAddress "https://server" "/v1/" "/platform/?x=1" = "https://server/v1/platform/?x=1" := by
  refine ⟨?_, trimRightSlash_noTrailing _, trimBothSlash_noLeading _,
    trimBothSlash_noTrailing _, trimLeftSlash_noLeading _, ?_, ?_, ?_, by decide⟩
  · rw [call_nonlogin c env m q hd hpd hq hop]
    exact authExec_addr c env (goToUpper m) q _
  · unfold joinAddress
    rw [trimBothSlash_slash_append]
  · unfold joinAddress
    rw [trimBothSlash_append_slash]
  · unfold joinAddress
    rw [trimLeftSlash_slash_append]

/-- Witness for C5: the spec's own example against the sample client. -/
theorem c5_witness :
    trimBothSlash sampleClient.pfx ≠ "" ∧
    (sampleClient.call sampleEnv "GET" "/platform/?x=1" false).trace.addr =
      some (joinAddress sampleClient.urlStr sampleClient.pfx "/platform/?x=1") ∧
    joinAddress sampleClient.urlStr sampleClient.pfx "/platform/?x=1" =
      "https://server/v1/platform/?x=1" := by
  have h := c5_address_join sampleClient sampleEnv "GET" "/platform/?x=1" false
    rfl (by decide) (by simp) (by decide)
  exact ⟨by decide, h.1, by decide⟩
